import Mathlib

/-!
Verification of the forecasting pipeline of `forecast_solar_data.py`.

The pipeline (function `forecast_solar_data`, lines 86-132) reads a
timestamped series, resamples it to daily buckets by summation
(`df.resample('D').sum()`, line 109), runs an augmented Dickey-Fuller
stationarity check (`check_stationarity`, lines 76-84), differences the
series once when the check reports non-stationary (line 114), fits a
SARIMA model and predicts 14 future values (`sarima_forecast`,
lines 47-74), clamps negative forecast values to the preceding corrected
value (lines 121-124), attaches a future daily date index (line 127) and
writes the result to the output CSV (line 132).

Timestamps are modelled as integers (seconds since the epoch), values as
rationals.  The external statistical library calls — the ADF test
(`adfuller`) and the SARIMA fit/predict — are abstracted as oracle
parameters; everything else is translated directly from the source.
The numerical p-value of the ADF test may be undefined (NaN) for a
degenerate series, modelled as `Option`: a Python comparison with NaN is
false.  The reading, timestamp parsing and last-month filtering of
lines 96-106 are external I/O and wall-clock dependent; the model starts
from the in-memory series those lines produce.
-/

deriving instance DecidableEq for Except

abbrev Value := ℚ

def secondsPerDay : ℤ := 86400

/-- Calendar day of a timestamp: floor division by the length of a day,
matching how `resample('D')` assigns an observation to its daily bucket. -/
def dayOf (t : ℤ) : ℤ := t / secondsPerDay

/-- Sum of the values of all observations falling in the daily bucket `d`:
the per-bucket `sum()` of `df.resample('D').sum()` (line 109).  An empty
bucket sums to zero (pandas `sum` with default `min_count=0`). -/
def bucketSum (xs : List (ℤ × Value)) (d : ℤ) : Value :=
  ((xs.filter (fun p => dayOf p.1 = d)).map Prod.snd).sum

/-- Embedding of `df.resample('D').sum()` (line 109): one row per calendar-day
bucket from the day of the first observation to the day of the last one, each
row carrying the bucket's midnight timestamp and the sum of the observations
falling in it. -/
def resampleDaily (xs : List (ℤ × Value)) : List (ℤ × Value) :=
  match xs with
  | [] => []
  | x :: rest =>
    (List.range ((dayOf (rest.getLastD x).1 - dayOf x.1) + 1).toNat).map
      (fun k : ℕ => ((dayOf x.1 + (k : ℤ)) * secondsPerDay,
                 bucketSum (x :: rest) (dayOf x.1 + (k : ℤ))))

/-- A series holding exactly one value per day on a daily-aligned index:
consecutive midnight timestamps starting at day `d0`. -/
def dailySeries (d0 : ℤ) : List Value → List (ℤ × Value)
  | [] => []
  | v :: vs => (d0 * secondsPerDay, v) :: dailySeries (d0 + 1) vs

/-- Embedding of `Series.dropna()`: keep the present values. -/
def dropna (xs : List (Option Value)) : List Value := xs.filterMap id

/-- Python `<=` against a possibly-NaN float (modelled as `none`): every
comparison with NaN is false. -/
def pyLe (x : Option Value) (y : Value) : Bool :=
  match x with
  | none => false
  | some v => decide (v ≤ y)

/-- The external `adfuller` call, abstracted: maps the tested sequence either
to the error it raises (statsmodels raises, e.g.,
`ValueError: Invalid input, x is constant` on an exactly constant sequence)
or to the p-value of the test, `none` standing for a degenerate/undefined
(NaN) one. -/
abbrev AdfPValue := List Value → Except String (Option Value)

/-- The significance threshold 0.05 of line 84, as the reduced fraction
1/20 (given by numerator and denominator directly). -/
def significanceLevel : ℚ := ⟨1, 20, by norm_num, Nat.coprime_one_left 20⟩

/-- Embedding of `check_stationarity` (lines 76-84):
`result = adfuller(timeseries.dropna()); return result[1] <= 0.05`.  The
function installs no exception handler, so an error raised by the `adfuller`
call propagates to the caller unchanged; a returned undefined (NaN) p-value
compares as false. -/
def check_stationarity (adf_pvalue : AdfPValue) (timeseries : List (Option Value)) :
    Except String Bool :=
  match adf_pvalue (dropna timeseries) with
  | .error e => .error e
  | .ok p => .ok (pyLe p significanceLevel)

/-- Embedding of `df[col] = df[col].diff().dropna()` (line 114): `diff` puts
NaN at position 0 and successive differences after it; `dropna` removes the
NaN, and assigning the result back into the frame re-aligns it on the index,
so the stored column keeps a missing first entry.  `diffFrom prev` is the
tail of the differences once `prev` has been consumed. -/
def diffFrom (prev : Value) : List Value → List (Option Value)
  | [] => []
  | x :: xs => some (x - prev) :: diffFrom x xs

/-- Differenced column as stored back into the frame by line 114. -/
def diffList : List Value → List (Option Value)
  | [] => []
  | x :: xs => none :: diffFrom x xs

/-- The external SARIMAX fit-and-predict, abstracted: receives the endogenous
column (possibly with missing entries), the non-seasonal orders `p d q`, the
seasonal orders `P D Q S`, and the `start` and `end` arguments of `predict`;
returns the predicted values or the raised error. -/
abbrev FitPredict :=
  List (Option Value) → ℕ → ℕ → ℕ → ℕ → ℕ → ℕ → ℕ → ℕ → ℕ →
    Except String (List Value)

/-- Embedding of `sarima_forecast` (lines 47-74): builds the SARIMAX model
with the given orders and calls
`predict(start=len(df), end=len(df) + forecast_periods - 1)`; the `except`
clause only logs and re-raises, so failures propagate unchanged. -/
def sarima_forecast (fitPredict : FitPredict) (column : List (Option Value))
    (best_p best_d best_q best_P best_D best_Q best_S : ℕ)
    (forecast_periods : ℕ) : Except String (List Value) :=
  fitPredict column best_p best_d best_q best_P best_D best_Q best_S
    column.length (column.length + forecast_periods - 1)

/-- In-place negative-value clamp of lines 122-124, after the first element:
a negative entry is replaced by the already-corrected previous entry `prev`. -/
def clampAux (prev : Value) : List Value → List Value
  | [] => []
  | x :: xs => if x < 0 then prev :: clampAux prev xs else x :: clampAux x xs

/-- The loop of lines 121-124: `for i in range(1, len(forecast)):
if forecast[i] < 0: forecast[i] = forecast[i-1]`.  Index 0 is never
corrected; from index 1 on, a negative raw value is replaced by the
already-corrected preceding value. -/
def clampForecast : List Value → List Value
  | [] => []
  | x :: xs => x :: clampAux x xs

/-- Embedding of
`pd.date_range(start=df.index[-1] + pd.Timedelta(days=1), periods, freq='D')`
(line 127): `periods` timestamps, one day apart, starting one day after the
last historical timestamp. -/
def forecast_dates (lastTs : ℤ) (periods : ℕ) : List ℤ :=
  (List.range periods).map (fun k : ℕ => lastTs + secondsPerDay * ((k : ℤ) + 1))

/-- Contents of the forecast output file: `none` when it was never written,
otherwise the (timestamp, forecast value) rows of the CSV. -/
structure FileState where
  output : Option (List (ℤ × Value))
deriving Repr, DecidableEq

/-- The sum of the configured orders appearing in the history-length bound
`p + d + q + P * S` of the specification, at the configuration of line 118. -/
def order_sum : ℕ := 4 + 1 + 7 + 1 * 52

/-- Embedding of `forecast_solar_data` (lines 86-132) after loading and the
last-month filter: resample to daily buckets (line 109); ADF stationarity
check and conditional differencing (lines 112-114); SARIMA forecast with the
hard-coded orders `(4, 1, 7, 1, 0, 1, 52)` of line 118 and horizon 14
(lines 117-119); negative-value clamp (lines 122-124); future date index
(line 127); CSV write (line 132), reached only when no step raised.  Returns
the resulting output-file state together with the raised error, if any; on an
empty resampled frame `adfuller` raises before anything else, an error raised
by the stationarity check (no handler exists between it and the caller)
propagates before the fit, and a length mismatch between the date index and
the forecast makes the `pd.DataFrame` constructor of line 128 raise. -/
def forecast_solar_data (fitPredict : FitPredict) (adf_pvalue : AdfPValue)
    (series : List (ℤ × Value)) (fs : FileState) : FileState × Option String :=
  match resampleDaily series with
  | [] => (fs, some "ValueError: sample size is too short")
  | b :: bs =>
    match check_stationarity adf_pvalue (((b :: bs).map Prod.snd).map some) with
    | .error e => (fs, some e)
    | .ok stationary =>
      let column : List (Option Value) :=
        if stationary then ((b :: bs).map Prod.snd).map some
        else diffList ((b :: bs).map Prod.snd)
      match sarima_forecast fitPredict column 4 1 7 1 0 1 52 14 with
      | .error e => (fs, some e)
      | .ok forecast =>
        let corrected := clampForecast forecast
        if corrected.length = 14 then
          ({ output := some ((forecast_dates (bs.getLastD b).1 14).zip corrected) },
           none)
        else (fs, some "ValueError: arrays must all be same length")

/-! ### Concrete oracles used to exercise the pipeline -/

/-- ADF oracle reporting p-value 1 (non-stationary verdict). -/
def adfHigh : AdfPValue := fun _ => Except.ok (some 1)

/-- ADF oracle reporting p-value 0 (stationary verdict). -/
def adfLow : AdfPValue := fun _ => Except.ok (some 0)

/-- ADF oracle modelling what statsmodels `adfuller` does on an exactly
constant tested sequence: it raises `ValueError: Invalid input, x is
constant` instead of returning a statistic.  (Only its behaviour at the
constant sequence arising from `constSeries` is relied upon.) -/
def adfConstantRaise : AdfPValue :=
  fun _ => Except.error "ValueError: Invalid input, x is constant"

/-- Fit oracle that always raises. -/
def fpErr : FitPredict := fun _ _ _ _ _ _ _ _ _ _ => Except.error "fit failed"

/-- Fit oracle honouring the statsmodels `predict` contract: the prediction
has one value per requested step, `end - start + 1` of them. -/
def fpOk : FitPredict :=
  fun _ _ _ _ _ _ _ _ s e => Except.ok (List.replicate (e + 1 - s) 0)

/-- Fit oracle whose predictions reveal the non-seasonal differencing order it
was called with: all ones when `d = 2`, all zeros otherwise. -/
def fpDMark : FitPredict :=
  fun _ _ d _ _ _ _ _ _ _ => Except.ok (List.replicate 14 (if d = 2 then 1 else 0))

/-- A two-observation input series, one observation on each of two
consecutive days. -/
def series0 : List (ℤ × Value) := [(0, 5), (86400, 3)]

/-- An exactly constant two-observation input series: the degenerate case on
which the external unit-root test has no defined statistic. -/
def constSeries : List (ℤ × Value) := [(0, 5), (86400, 5)]

/-! ### Unfolding lemmas for the pipeline -/

lemma forecast_solar_data_nil (fp : FitPredict) (adf : AdfPValue)
    (series : List (ℤ × Value)) (fs : FileState) (hdf : resampleDaily series = []) :
    forecast_solar_data fp adf series fs =
      (fs, some "ValueError: sample size is too short") := by
  unfold forecast_solar_data
  rw [hdf]

lemma forecast_solar_data_cons (fp : FitPredict) (adf : AdfPValue)
    (series : List (ℤ × Value)) (fs : FileState) (b : ℤ × Value)
    (bs : List (ℤ × Value)) (hdf : resampleDaily series = b :: bs) :
    forecast_solar_data fp adf series fs =
      match check_stationarity adf (((b :: bs).map Prod.snd).map some) with
      | .error e => (fs, some e)
      | .ok stationary =>
        match sarima_forecast fp
            (if stationary then ((b :: bs).map Prod.snd).map some
             else diffList ((b :: bs).map Prod.snd)) 4 1 7 1 0 1 52 14 with
        | .error e => (fs, some e)
        | .ok forecast =>
          if (clampForecast forecast).length = 14 then
            ({ output := some ((forecast_dates (bs.getLastD b).1 14).zip
                (clampForecast forecast)) }, none)
          else (fs, some "ValueError: arrays must all be same length") := by
  unfold forecast_solar_data
  rw [hdf]

lemma forecast_solar_data_check_error (fp : FitPredict) (adf : AdfPValue)
    (series : List (ℤ × Value)) (fs : FileState) (b : ℤ × Value)
    (bs : List (ℤ × Value)) (e : String) (hdf : resampleDaily series = b :: bs)
    (hst : check_stationarity adf (((b :: bs).map Prod.snd).map some) =
      Except.error e) :
    forecast_solar_data fp adf series fs = (fs, some e) := by
  rw [forecast_solar_data_cons fp adf series fs b bs hdf, hst]

lemma forecast_solar_data_check_ok (fp : FitPredict) (adf : AdfPValue)
    (series : List (ℤ × Value)) (fs : FileState) (b : ℤ × Value)
    (bs : List (ℤ × Value)) (stationary : Bool)
    (hdf : resampleDaily series = b :: bs)
    (hst : check_stationarity adf (((b :: bs).map Prod.snd).map some) =
      Except.ok stationary) :
    forecast_solar_data fp adf series fs =
      match sarima_forecast fp
          (if stationary then ((b :: bs).map Prod.snd).map some
           else diffList ((b :: bs).map Prod.snd)) 4 1 7 1 0 1 52 14 with
      | .error e => (fs, some e)
      | .ok forecast =>
        if (clampForecast forecast).length = 14 then
          ({ output := some ((forecast_dates (bs.getLastD b).1 14).zip
              (clampForecast forecast)) }, none)
        else (fs, some "ValueError: arrays must all be same length") := by
  rw [forecast_solar_data_cons fp adf series fs b bs hdf, hst]

/-! ### The negative-value clamp (lines 121-124) -/

lemma clampAux_length (l : List Value) : ∀ prev, (clampAux prev l).length = l.length := by
  induction l with
  | nil => intro prev; rfl
  | cons x xs ih =>
    intro prev
    simp only [clampAux]
    split <;> simp [ih]

lemma clampForecast_length (l : List Value) : (clampForecast l).length = l.length := by
  cases l with
  | nil => rfl
  | cons x xs => simp [clampForecast, clampAux_length]

lemma clampAux_cons (prev x : Value) (xs : List Value) :
    clampAux prev (x :: xs) =
      (if x < 0 then prev else x) :: clampAux (if x < 0 then prev else x) xs := by
  simp only [clampAux]
  split <;> rfl

lemma clampAux_getD (l : List Value) : ∀ (prev : Value) (i : ℕ), i < l.length →
    (clampAux prev l).getD i 0 =
      if l.getD i 0 < 0 then
        (if i = 0 then prev else (clampAux prev l).getD (i - 1) 0)
      else l.getD i 0 := by
  induction l with
  | nil => intro prev i hi; simp at hi
  | cons x xs ih =>
    intro prev i hi
    rw [clampAux_cons]
    match i with
    | 0 =>
      simp only [List.getD_cons_zero]
      by_cases hx : x < 0 <;> simp [hx]
    | j + 1 =>
      have hj : j < xs.length := by simpa using hi
      simp only [List.getD_cons_succ, Nat.add_sub_cancel, Nat.succ_ne_zero, if_false]
      rw [ih _ j hj]
      cases j with
      | zero => simp
      | succ k => simp

lemma clampAux_neg (l : List Value) : ∀ (prev : Value) (i : ℕ), i < l.length →
    (clampAux prev l).getD i 0 < 0 → (clampAux prev l).getD i 0 = prev := by
  induction l with
  | nil => intro prev i hi; simp at hi
  | cons x xs ih =>
    intro prev i hi
    rw [clampAux_cons]
    match i with
    | 0 =>
      simp only [List.getD_cons_zero]
      intro h0
      by_cases hx : x < 0
      · rw [if_pos hx]
      · rw [if_neg hx] at h0 ⊢
        exact absurd h0 hx
    | j + 1 =>
      simp only [List.getD_cons_succ]
      intro hneg
      have h2 := ih _ j (by simpa using hi) hneg
      rw [h2] at hneg ⊢
      by_cases hx : x < 0
      · rw [if_pos hx]
      · rw [if_neg hx] at hneg ⊢
        exact absurd hneg hx

/-- C1: for every raw forecast sequence of length at least 1, the corrected
sequence has the same length, its first value equals the first raw value even
when that value is negative, and for every later index a negative raw value is
replaced by the already-corrected preceding value while a non-negative raw
value is kept unchanged. -/
theorem clamp_causal_spec (raw : List Value) (h : raw ≠ []) :
    (clampForecast raw).length = raw.length ∧
    (clampForecast raw).getD 0 0 = raw.getD 0 0 ∧
    ∀ i : ℕ, 1 ≤ i → i < raw.length →
      (clampForecast raw).getD i 0 =
        if raw.getD i 0 < 0 then (clampForecast raw).getD (i - 1) 0
        else raw.getD i 0 := by
  match raw, h with
  | r :: rs, _ =>
    refine ⟨clampForecast_length _, by simp [clampForecast], ?_⟩
    intro i h1 hi
    match i, h1 with
    | j + 1, _ =>
      have hj : j < rs.length := by simpa using hi
      simp only [clampForecast, List.getD_cons_succ, Nat.add_sub_cancel]
      rw [clampAux_getD rs r j hj]
      cases j with
      | zero => simp
      | succ k => simp

/-- Witness for C1 at the concrete raw forecast `[1, -3, 2]`. -/
theorem clamp_causal_spec_witness :
    (clampForecast [(1 : ℚ), -3, 2]).getD 1 0 =
      (if ([(1 : ℚ), -3, 2].getD 1 0) < 0 then (clampForecast [(1 : ℚ), -3, 2]).getD 0 0
       else [(1 : ℚ), -3, 2].getD 1 0) :=
  (clamp_causal_spec [(1 : ℚ), -3, 2] (by decide)).2.2 1 (by decide) (by decide)

/-- C10: after the clamp, every value that is still negative equals the first
raw value, and consequently a non-negative first raw value makes the whole
corrected sequence non-negative. -/
theorem clamp_negative_invariant (raw : List Value) :
    (∀ i : ℕ, i < raw.length → (clampForecast raw).getD i 0 < 0 →
        (clampForecast raw).getD i 0 = raw.getD 0 0) ∧
    (0 ≤ raw.getD 0 0 → ∀ i : ℕ, i < raw.length → 0 ≤ (clampForecast raw).getD i 0) := by
  have key : ∀ i : ℕ, i < raw.length → (clampForecast raw).getD i 0 < 0 →
      (clampForecast raw).getD i 0 = raw.getD 0 0 := by
    intro i hi hneg
    match raw, i with
    | r :: rs, 0 => simp [clampForecast]
    | r :: rs, j + 1 =>
      simp only [clampForecast, List.getD_cons_succ] at hneg ⊢
      simpa using clampAux_neg rs r j (by simpa using hi) hneg
  refine ⟨key, ?_⟩
  intro h0 i hi
  by_contra hneg
  push_neg at hneg
  have := key i hi hneg
  rw [this] at hneg
  exact absurd h0 (not_le.mpr hneg)

/-- Witness for C10 at the concrete raw forecast `[-2, -1, 5]`: the corrected
value at index 1 is negative and equals the first raw value. -/
theorem clamp_negative_invariant_witness :
    (clampForecast [(-2 : ℚ), -1, 5]).getD 1 0 = [(-2 : ℚ), -1, 5].getD 0 0 :=
  (clamp_negative_invariant [(-2 : ℚ), -1, 5]).1 1 (by decide) (by decide)

/-! ### Degenerate stationarity statistic (C6) and fit failure (C7) -/

/-- C6 counterexample: on an exactly constant input series the external
`adfuller` raises (statsmodels: `ValueError: Invalid input, x is constant`)
instead of returning a statistic; `check_stationarity` installs no handler,
so no boolean verdict is produced — in particular the check does not resolve
to the safe default non-stationary — and the concrete pipeline run aborts
with that error instead of proceeding (even though the fit oracle would have
succeeded), leaving the output file unwritten. -/
theorem check_stationarity_constant_series_crashes :
    check_stationarity adfConstantRaise ((constSeries.map Prod.snd).map some) ≠
      Except.ok false ∧
    (forecast_solar_data fpOk adfConstantRaise constSeries ⟨none⟩).2 =
      some "ValueError: Invalid input, x is constant" ∧
    (forecast_solar_data fpOk adfConstantRaise constSeries ⟨none⟩).1 = ⟨none⟩ := by
  refine ⟨by decide, by decide, by decide⟩

/-- C6 amended: the only degenerate case the code tolerates is an undefined
(NaN) p-value returned by the test, which the comparison of line 84 turns
into the safe default non-stationary without raising; an exception raised
by the `adfuller` call itself (as statsmodels raises on an exactly constant
series) is caught nowhere — it propagates, aborts the pipeline before the
fit and the write, and leaves the output file unchanged. -/
theorem check_stationarity_degenerate (adf : AdfPValue) (ts : List (Option Value))
    (fp : FitPredict) (series : List (ℤ × Value)) (fs : FileState) (e : String) :
    (adf (dropna ts) = Except.ok none →
      check_stationarity adf ts = Except.ok false) ∧
    ((∀ xs, adf xs = Except.error e) →
      (forecast_solar_data fp adf series fs).1 = fs ∧
      (forecast_solar_data fp adf series fs).2 ≠ none) := by
  constructor
  · intro h
    simp [check_stationarity, h, pyLe]
  · intro hadf
    cases hdf : resampleDaily series with
    | nil =>
      rw [forecast_solar_data_nil fp adf series fs hdf]
      simp
    | cons b bs =>
      rw [forecast_solar_data_check_error fp adf series fs b bs e hdf
        (by simp [check_stationarity, hadf])]
      simp

/-- Witness for the amended C6: a NaN p-value yields the non-stationary
default, and an oracle raising the way statsmodels does on a constant series
aborts a concrete pipeline run, leaving the pre-existing file untouched. -/
theorem check_stationarity_degenerate_witness :
    check_stationarity (fun _ => Except.ok none) [some 1] = Except.ok false ∧
    ((forecast_solar_data fpOk adfConstantRaise constSeries ⟨some [(1, 2)]⟩).1 =
        ⟨some [(1, 2)]⟩ ∧
      (forecast_solar_data fpOk adfConstantRaise constSeries ⟨some [(1, 2)]⟩).2 ≠
        none) :=
  ⟨(check_stationarity_degenerate (fun _ => Except.ok none) [some 1] fpOk constSeries
      ⟨some [(1, 2)]⟩ "x").1 rfl,
   (check_stationarity_degenerate adfConstantRaise [some 1] fpOk constSeries
      ⟨some [(1, 2)]⟩ "ValueError: Invalid input, x is constant").2
      (fun _ => rfl)⟩

/-- C7: when the SARIMA fit/predict raises, the error propagates out of
`forecast_solar_data` before the write of line 132 is reached: the output file
state is returned unchanged and an error is reported. -/
theorem forecast_failure_preserves_output (fp : FitPredict) (adf : AdfPValue)
    (series : List (ℤ × Value)) (fs : FileState) (e : String)
    (hfp : ∀ c p d q P D Q S s n, fp c p d q P D Q S s n = Except.error e) :
    (forecast_solar_data fp adf series fs).1 = fs ∧
    (forecast_solar_data fp adf series fs).2 ≠ none := by
  cases hdf : resampleDaily series with
  | nil =>
    rw [forecast_solar_data_nil fp adf series fs hdf]
    simp
  | cons b bs =>
    rw [forecast_solar_data_cons fp adf series fs b bs hdf]
    cases hst : check_stationarity adf (((b :: bs).map Prod.snd).map some) with
    | error e2 => simp
    | ok stationary =>
      simp only [sarima_forecast, hfp]
      simp

/-- Witness for C7: a failing fit leaves a pre-existing output file untouched. -/
theorem forecast_failure_preserves_output_witness :
    (forecast_solar_data fpErr adfHigh series0 ⟨some [(1, 2)]⟩).1 = ⟨some [(1, 2)]⟩ ∧
    (forecast_solar_data fpErr adfHigh series0 ⟨some [(1, 2)]⟩).2 ≠ none :=
  forecast_failure_preserves_output fpErr adfHigh series0 ⟨some [(1, 2)]⟩ "fit failed"
    (fun _ _ _ _ _ _ _ _ _ _ => rfl)

/-! ### The daily resampler (line 109) -/

lemma secondsPerDay_pos : (0 : ℤ) < secondsPerDay := by norm_num [secondsPerDay]

lemma dayOf_mul (d : ℤ) : dayOf (d * secondsPerDay) = d := by
  unfold dayOf
  exact Int.mul_ediv_cancel d (by norm_num [secondsPerDay])

lemma dayOf_mono {s t : ℤ} (h : s ≤ t) : dayOf s ≤ dayOf t :=
  Int.ediv_le_ediv secondsPerDay_pos h

lemma bucketSum_cons (x : ℤ × Value) (xs : List (ℤ × Value)) (d : ℤ) :
    bucketSum (x :: xs) d = (if dayOf x.1 = d then x.2 else 0) + bucketSum xs d := by
  unfold bucketSum
  rw [List.filter_cons]
  by_cases h : dayOf x.1 = d <;> simp [h]

lemma map_getLastD {α β : Type} (f : α → β) (l : List α) (a : α) :
    (l.map f).getLastD (f a) = f (l.getLastD a) := by
  induction l generalizing a with
  | nil => rfl
  | cons b bs ih =>
    rw [List.map_cons, List.getLastD_cons, List.getLastD_cons]
    exact ih b

lemma head_le_getLastD {l : List ℤ} {a : ℤ} (h : List.Chain' (· < ·) (a :: l)) :
    a ≤ l.getLastD a := by
  induction l generalizing a with
  | nil => simp
  | cons b bs ih =>
    rw [List.getLastD_cons]
    exact le_trans (List.chain'_cons.mp h).1.le (ih (List.chain'_cons.mp h).2)

lemma mem_between_head_getLastD {l : List ℤ} {a t : ℤ}
    (h : List.Chain' (· < ·) (a :: l)) (ht : t ∈ a :: l) :
    a ≤ t ∧ t ≤ l.getLastD a := by
  induction l generalizing a with
  | nil =>
    simp only [List.mem_singleton] at ht
    subst ht
    simp
  | cons b bs ih =>
    rw [List.getLastD_cons]
    rcases List.mem_cons.mp ht with rfl | ht'
    · exact ⟨le_refl _,
        le_trans (List.chain'_cons.mp h).1.le (head_le_getLastD (List.chain'_cons.mp h).2)⟩
    · have hrec := ih (List.chain'_cons.mp h).2 ht'
      exact ⟨le_trans (List.chain'_cons.mp h).1.le hrec.1, hrec.2⟩

/-- C8: for every nonempty input series with strictly increasing timestamps,
the daily resampler produces exactly one row per calendar-day bucket between
the first and the last observed day — consecutive midnight timestamps, one
day apart, a day is covered iff it lies in the observed range (so no gaps and
no duplicates) — each row's value is the sum of the observations falling in
its bucket, a bucket with no observations gets zero, and every observation
falls in one of the produced buckets. -/
theorem resample_daily_buckets (x : ℤ × Value) (rest : List (ℤ × Value))
    (hs : List.Chain' (· < ·) ((x :: rest).map Prod.fst)) :
    (resampleDaily (x :: rest)).map Prod.fst =
      (List.range ((dayOf (rest.getLastD x).1 - dayOf x.1) + 1).toNat).map
        (fun k : ℕ => (dayOf x.1 + (k : ℤ)) * secondsPerDay) ∧
    List.Chain' (fun a b => b = a + secondsPerDay)
      ((resampleDaily (x :: rest)).map Prod.fst) ∧
    (∀ d : ℤ, (dayOf x.1 ≤ d ∧ d ≤ dayOf (rest.getLastD x).1) ↔
        d * secondsPerDay ∈ (resampleDaily (x :: rest)).map Prod.fst) ∧
    (∀ p ∈ resampleDaily (x :: rest),
        p.2 = (((x :: rest).filter (fun q => dayOf q.1 = dayOf p.1)).map Prod.snd).sum) ∧
    (∀ p ∈ resampleDaily (x :: rest),
        (x :: rest).filter (fun q => dayOf q.1 = dayOf p.1) = [] → p.2 = 0) ∧
    (∀ q ∈ x :: rest, dayOf x.1 ≤ dayOf q.1 ∧ dayOf q.1 ≤ dayOf (rest.getLastD x).1) := by
  have hlast0 : (rest.map Prod.fst).getLastD x.1 = (rest.getLastD x).1 :=
    map_getLastD Prod.fst rest x
  have hfl : x.1 ≤ (rest.getLastD x).1 := by
    have hh := head_le_getLastD (l := rest.map Prod.fst) (a := x.1) (by simpa using hs)
    rwa [hlast0] at hh
  have h01 : dayOf x.1 ≤ dayOf (rest.getLastD x).1 := dayOf_mono hfl
  have hn : (((dayOf (rest.getLastD x).1 - dayOf x.1) + 1).toNat : ℤ) =
      (dayOf (rest.getLastD x).1 - dayOf x.1) + 1 := Int.toNat_of_nonneg (by omega)
  have hmap : (resampleDaily (x :: rest)).map Prod.fst =
      (List.range ((dayOf (rest.getLastD x).1 - dayOf x.1) + 1).toNat).map
        (fun k : ℕ => (dayOf x.1 + (k : ℤ)) * secondsPerDay) := by
    simp only [resampleDaily, List.map_map]
    rfl
  have hmem : ∀ d : ℤ, (dayOf x.1 ≤ d ∧ d ≤ dayOf (rest.getLastD x).1) ↔
      d * secondsPerDay ∈ (resampleDaily (x :: rest)).map Prod.fst := by
    intro d
    rw [hmap]
    constructor
    · rintro ⟨hld, hdr⟩
      refine List.mem_map.mpr ⟨(d - dayOf x.1).toNat, List.mem_range.mpr (by omega), ?_⟩
      have hcast : ((d - dayOf x.1).toNat : ℤ) = d - dayOf x.1 :=
        Int.toNat_of_nonneg (by omega)
      rw [hcast]
      ring
    · intro hd
      obtain ⟨k, hk, hkd⟩ := List.mem_map.mp hd
      have hk' := List.mem_range.mp hk
      have hday : (secondsPerDay : ℤ) ≠ 0 := by norm_num [secondsPerDay]
      have hdk : dayOf x.1 + (k : ℤ) = d := mul_right_cancel₀ hday hkd
      have hkz : (k : ℤ) < (dayOf (rest.getLastD x).1 - dayOf x.1) + 1 := by
        rw [← hn]
        exact_mod_cast hk'
      omega
  have hchain : List.Chain' (fun a b => b = a + secondsPerDay)
      ((resampleDaily (x :: rest)).map Prod.fst) := by
    rw [hmap, List.chain'_map]
    cases hcase : ((dayOf (rest.getLastD x).1 - dayOf x.1) + 1).toNat with
    | zero => simp
    | succ m =>
      rw [List.chain'_range_succ]
      intro i _
      push_cast
      ring
  have hval : ∀ p ∈ resampleDaily (x :: rest),
      p.2 = (((x :: rest).filter (fun q => dayOf q.1 = dayOf p.1)).map Prod.snd).sum := by
    intro p hp
    simp only [resampleDaily, List.mem_map] at hp
    obtain ⟨k, _, rfl⟩ := hp
    simp only [dayOf_mul]
    rfl
  have hzero : ∀ p ∈ resampleDaily (x :: rest),
      (x :: rest).filter (fun q => dayOf q.1 = dayOf p.1) = [] → p.2 = 0 := by
    intro p hp hfil
    rw [hval p hp, hfil]
    simp
  have hcov : ∀ q ∈ x :: rest,
      dayOf x.1 ≤ dayOf q.1 ∧ dayOf q.1 ≤ dayOf (rest.getLastD x).1 := by
    intro q hq
    have hq1 : q.1 ∈ (x :: rest).map Prod.fst := List.mem_map_of_mem Prod.fst hq
    have hb := mem_between_head_getLastD (l := rest.map Prod.fst) (a := x.1) (t := q.1)
      (by simpa using hs) (by simpa using hq1)
    rw [hlast0] at hb
    exact ⟨dayOf_mono hb.1, dayOf_mono hb.2⟩
  exact ⟨hmap, hchain, hmem, hval, hzero, hcov⟩

/-- Witness for C8: day 3 is inside the observed range of a concrete
two-observation series spanning days 0 to 3, so its bucket row is present. -/
theorem resample_daily_buckets_witness :
    ((3 : ℤ) * secondsPerDay) ∈
      (resampleDaily [((0 : ℤ), (5 : ℚ)), (300000, 3)]).map Prod.fst :=
  ((resample_daily_buckets ((0 : ℤ), (5 : ℚ)) [(300000, 3)]
      (by norm_num [List.map_cons, List.chain'_cons, List.chain'_singleton])).2.2.1 3).mp
    (by decide)

/-! ### Idempotence of the resampler on already-daily series (C9) -/

lemma dailySeries_getLastD (vs : List Value) : ∀ (d0 : ℤ) (v : Value),
    ((dailySeries (d0 + 1) vs).getLastD (d0 * secondsPerDay, v)).1 =
      (d0 + vs.length) * secondsPerDay := by
  induction vs with
  | nil => intro d0 v; simp [dailySeries]
  | cons w ws ih =>
    intro d0 v
    simp only [dailySeries, List.getLastD_cons]
    rw [ih (d0 + 1) w, List.length_cons]
    push_cast
    ring

lemma bucketSum_dailySeries_lt (vs : List Value) : ∀ (d0 d : ℤ), d < d0 →
    bucketSum (dailySeries d0 vs) d = 0 := by
  induction vs with
  | nil => intro d0 d _; rfl
  | cons w ws ih =>
    intro d0 d hd
    rw [show dailySeries d0 (w :: ws) = (d0 * secondsPerDay, w) :: dailySeries (d0 + 1) ws
        from rfl]
    rw [bucketSum_cons]
    simp only [dayOf_mul]
    rw [if_neg (by omega), ih (d0 + 1) d (by omega), add_zero]

lemma bucketSum_dailySeries (vs : List Value) : ∀ (d0 : ℤ) (k : ℕ), k < vs.length →
    bucketSum (dailySeries d0 vs) (d0 + k) = vs.getD k 0 := by
  induction vs with
  | nil => intro d0 k hk; simp at hk
  | cons w ws ih =>
    intro d0 k hk
    rw [show dailySeries d0 (w :: ws) = (d0 * secondsPerDay, w) :: dailySeries (d0 + 1) ws
        from rfl]
    rw [bucketSum_cons]
    simp only [dayOf_mul]
    match k with
    | 0 =>
      rw [if_pos (by push_cast; ring)]
      rw [bucketSum_dailySeries_lt ws (d0 + 1) _ (by push_cast; omega), add_zero]
      simp
    | j + 1 =>
      rw [if_neg (by push_cast; omega), zero_add]
      rw [show d0 + ((j + 1 : ℕ) : ℤ) = (d0 + 1) + (j : ℤ) by push_cast; ring]
      rw [ih (d0 + 1) j (by simpa using hk)]
      simp

lemma dailySeries_eq_map (vs : List Value) : ∀ d0 : ℤ,
    dailySeries d0 vs =
      (List.range vs.length).map
        (fun k : ℕ => ((d0 + (k : ℤ)) * secondsPerDay, vs.getD k 0)) := by
  induction vs with
  | nil => intro d0; rfl
  | cons w ws ih =>
    intro d0
    rw [show dailySeries d0 (w :: ws) = (d0 * secondsPerDay, w) :: dailySeries (d0 + 1) ws
        from rfl]
    rw [List.length_cons, List.range_succ_eq_map, List.map_cons, List.map_map]
    refine congrArg₂ List.cons (by simp) ?_
    rw [ih (d0 + 1)]
    refine List.map_congr_left ?_
    intro k _
    simp only [Function.comp_apply, List.getD_cons_succ]
    refine congrArg₂ Prod.mk ?_ rfl
    push_cast
    ring

lemma resampleDaily_dailySeries (d0 : ℤ) (vs : List Value) (h : vs ≠ []) :
    resampleDaily (dailySeries d0 vs) = dailySeries d0 vs := by
  match vs, h with
  | v :: ws, _ =>
    rw [show dailySeries d0 (v :: ws) = (d0 * secondsPerDay, v) :: dailySeries (d0 + 1) ws
        from rfl]
    simp only [resampleDaily]
    rw [dailySeries_getLastD ws d0 v]
    simp only [dayOf_mul]
    rw [show d0 + (ws.length : ℤ) - d0 + 1 = ((ws.length + 1 : ℕ) : ℤ) by push_cast; ring]
    rw [Int.toNat_natCast]
    rw [show ((d0 * secondsPerDay, v) :: dailySeries (d0 + 1) ws) = dailySeries d0 (v :: ws)
        from rfl]
    conv_rhs => rw [dailySeries_eq_map (v :: ws) d0]
    rw [List.length_cons]
    refine List.map_congr_left ?_
    intro k hk
    refine congrArg₂ Prod.mk rfl ?_
    exact bucketSum_dailySeries (v :: ws) d0 k (by simpa using List.mem_range.mp hk)

lemma exists_dailySeries (xs : List (ℤ × Value)) (h : xs ≠ [])
    (haligned : ∀ p ∈ xs, secondsPerDay ∣ p.1)
    (hdaily : List.Chain' (fun a b : ℤ × Value => b.1 = a.1 + secondsPerDay) xs) :
    ∃ (d0 : ℤ) (vs : List Value), vs ≠ [] ∧ xs = dailySeries d0 vs := by
  induction xs with
  | nil => exact absurd rfl h
  | cons p rest ih =>
    obtain ⟨d0, hd0⟩ := haligned p (List.mem_cons_self p rest)
    have hp : p = (d0 * secondsPerDay, p.2) := by
      refine Prod.ext ?_ rfl
      rw [hd0]
      ring
    cases rest with
    | nil =>
      refine ⟨d0, [p.2], by simp, ?_⟩
      rw [hp]
      rfl
    | cons q rest' =>
      obtain ⟨d1, vs, hvs, heq⟩ := ih (by simp)
        (fun r hr => haligned r (List.mem_cons_of_mem p hr))
        (List.chain'_cons.mp hdaily).2
      match vs, hvs with
      | w :: vs', _ =>
        have hq1 : q.1 = d1 * secondsPerDay := by
          have hhead := congrArg (fun l => (l.headD ((0 : ℤ), (0 : Value))).1) heq
          simpa [dailySeries] using hhead
        have hrel : q.1 = p.1 + secondsPerDay := (List.chain'_cons.mp hdaily).1
        have hd1 : d1 = d0 + 1 := by
          have hday : (secondsPerDay : ℤ) ≠ 0 := by norm_num [secondsPerDay]
          have hmul : d1 * secondsPerDay = (d0 + 1) * secondsPerDay := by
            rw [← hq1, hrel, hd0]
            ring
          exact mul_right_cancel₀ hday hmul
        refine ⟨d0, p.2 :: w :: vs', by simp, ?_⟩
        calc p :: q :: rest' = p :: dailySeries d1 (w :: vs') := by rw [heq]
          _ = dailySeries d0 (p.2 :: w :: vs') := by rw [hd1, hp]; rfl

/-- C9: resampling is idempotent at the same granularity: a nonempty series
that already holds exactly one value per day on a daily-aligned index
(midnight timestamps, consecutive days, one value each) is returned
identically by the daily resample-by-sum. -/
theorem resample_daily_idempotent (xs : List (ℤ × Value)) (h : xs ≠ [])
    (haligned : ∀ p ∈ xs, secondsPerDay ∣ p.1)
    (hdaily : List.Chain' (fun a b : ℤ × Value => b.1 = a.1 + secondsPerDay) xs) :
    resampleDaily xs = xs := by
  obtain ⟨d0, vs, hvs, rfl⟩ := exists_dailySeries xs h haligned hdaily
  exact resampleDaily_dailySeries d0 vs hvs

/-- Witness for C9 at a concrete two-day daily-aligned series. -/
theorem resample_daily_idempotent_witness :
    resampleDaily [((0 : ℤ), (1 : ℚ)), (86400, 2)] = [((0 : ℤ), (1 : ℚ)), (86400, 2)] :=
  resample_daily_idempotent _ (by decide) (by decide)
    (by norm_num [List.chain'_cons, List.chain'_singleton, secondsPerDay])

/-! ### Pipeline-level results (C2, C3, C4, C5, C7) -/

lemma forecast_dates_length (t : ℤ) (n : ℕ) : (forecast_dates t n).length = n := by
  simp [forecast_dates]

lemma forecast_dates_headD (t : ℤ) (n : ℕ) (hn : n ≠ 0) :
    (forecast_dates t n).headD 0 = t + secondsPerDay := by
  obtain ⟨m, rfl⟩ := Nat.exists_eq_succ_of_ne_zero hn
  simp [forecast_dates, List.range_succ_eq_map]

lemma forecast_dates_chain (t : ℤ) (n : ℕ) :
    List.Chain' (fun a b => b = a + secondsPerDay) (forecast_dates t n) := by
  unfold forecast_dates
  rw [List.chain'_map]
  cases n with
  | zero => simp
  | succ m =>
    rw [List.chain'_range_succ]
    intro i _
    push_cast
    ring

lemma forecast_dates_lt_chain (t : ℤ) (n : ℕ) :
    List.Chain' (· < ·) (forecast_dates t n) := by
  refine List.Chain'.imp ?_ (forecast_dates_chain t n)
  intro a b hab
  rw [hab]
  norm_num [secondsPerDay]

lemma forecast_solar_data_success (fp : FitPredict) (adf : AdfPValue)
    (series : List (ℤ × Value)) (fs : FileState)
    (hok : (forecast_solar_data fp adf series fs).2 = none) :
    ∃ (b : ℤ × Value) (bs : List (ℤ × Value)) (f : List Value),
      resampleDaily series = b :: bs ∧ (clampForecast f).length = 14 ∧
      forecast_solar_data fp adf series fs =
        ({ output := some ((forecast_dates (bs.getLastD b).1 14).zip
            (clampForecast f)) }, none) := by
  cases hdf : resampleDaily series with
  | nil =>
    rw [forecast_solar_data_nil fp adf series fs hdf] at hok
    exact absurd hok (by simp)
  | cons b bs =>
    cases hst : check_stationarity adf (((b :: bs).map Prod.snd).map some) with
    | error e =>
      rw [forecast_solar_data_check_error fp adf series fs b bs e hdf hst] at hok
      exact absurd hok (by simp)
    | ok stationary =>
      rw [forecast_solar_data_check_ok fp adf series fs b bs stationary hdf hst] at hok
      cases hfit : sarima_forecast fp
          (if stationary then ((b :: bs).map Prod.snd).map some
           else diffList ((b :: bs).map Prod.snd)) 4 1 7 1 0 1 52 14 with
      | error e =>
        rw [hfit] at hok
        exact absurd hok (by simp)
      | ok f =>
        rw [hfit] at hok
        have hok' : ((if (clampForecast f).length = 14 then
            (({ output := some ((forecast_dates (bs.getLastD b).1 14).zip
                (clampForecast f)) } : FileState), (none : Option String))
            else (fs, some "ValueError: arrays must all be same length")).2 = none) :=
          hok
        by_cases hlen14 : (clampForecast f).length = 14
        · refine ⟨b, bs, f, rfl, hlen14, ?_⟩
          rw [forecast_solar_data_check_ok fp adf series fs b bs stationary hdf hst,
            hfit]
          exact if_pos hlen14
        · rw [if_neg hlen14] at hok'
          exact absurd hok' (by simp)

/-- C2: under the statsmodels `predict` contract (one value per step, from
`start` to `end` inclusive), every successful SARIMA call made by the
pipeline returns exactly 14 values — the hard-coded horizon of line 117 —
and every successful run writes exactly 14 rows to the output file. -/
theorem forecast_length_eq_horizon (fp : FitPredict) (adf : AdfPValue)
    (series : List (ℤ × Value)) (fs : FileState)
    (hlen : ∀ c p d q P D Q S s n vs, fp c p d q P D Q S s n = Except.ok vs →
        vs.length = n + 1 - s)
    (hok : (forecast_solar_data fp adf series fs).2 = none) :
    (∀ (c : List (Option Value)) (vs : List Value),
        sarima_forecast fp c 4 1 7 1 0 1 52 14 = Except.ok vs → vs.length = 14) ∧
    ∃ rows, (forecast_solar_data fp adf series fs).1.output = some rows ∧
      rows.length = 14 := by
  constructor
  · intro c vs hvs
    have hv := hlen c 4 1 7 1 0 1 52 c.length (c.length + 14 - 1) vs hvs
    omega
  · obtain ⟨b, bs, f, _, hlen14, heq⟩ := forecast_solar_data_success fp adf series fs hok
    refine ⟨(forecast_dates (bs.getLastD b).1 14).zip (clampForecast f), by rw [heq], ?_⟩
    simp [List.length_zip, forecast_dates_length, hlen14]

/-- Witness for C2 with a contract-honouring fit oracle on a concrete series. -/
theorem forecast_length_eq_horizon_witness :
    ∃ rows, (forecast_solar_data fpOk adfLow series0 ⟨none⟩).1.output = some rows ∧
      rows.length = 14 :=
  (forecast_length_eq_horizon fpOk adfLow series0 ⟨none⟩
    (fun c p d q P D Q S s n vs hv => by
      simp only [fpOk] at hv
      cases hv
      simp)
    (by decide)).2

/-- C3: on every successful run (success entails a nonempty resampled input),
the written rows carry exactly the generated future date index: timestamps
one day apart, strictly increasing and contiguous, the first one equal to the
last resampled input timestamp plus exactly one day. -/
theorem forecast_dates_contiguous (fp : FitPredict) (adf : AdfPValue)
    (series : List (ℤ × Value)) (fs : FileState)
    (hok : (forecast_solar_data fp adf series fs).2 = none) :
    ∃ rows, (forecast_solar_data fp adf series fs).1.output = some rows ∧
      rows.map Prod.fst =
        forecast_dates ((resampleDaily series).getLastD (0, 0)).1 14 ∧
      (rows.map Prod.fst).headD 0 =
        ((resampleDaily series).getLastD (0, 0)).1 + secondsPerDay ∧
      List.Chain' (fun a b => b = a + secondsPerDay) (rows.map Prod.fst) ∧
      List.Chain' (· < ·) (rows.map Prod.fst) := by
  obtain ⟨b, bs, f, hdf, hlen14, heq⟩ := forecast_solar_data_success fp adf series fs hok
  have hfst : ((forecast_dates (bs.getLastD b).1 14).zip (clampForecast f)).map Prod.fst =
      forecast_dates (bs.getLastD b).1 14 :=
    List.map_fst_zip _ _ (by rw [forecast_dates_length, hlen14])
  have hlastD : ((resampleDaily series).getLastD (0, 0)).1 = (bs.getLastD b).1 := by
    rw [hdf, List.getLastD_cons]
  refine ⟨(forecast_dates (bs.getLastD b).1 14).zip (clampForecast f), by rw [heq],
    ?_, ?_, ?_, ?_⟩
  · rw [hfst, hlastD]
  · rw [hfst, hlastD]
    exact forecast_dates_headD _ 14 (by norm_num)
  · rw [hfst]
    exact forecast_dates_chain _ 14
  · rw [hfst]
    exact forecast_dates_lt_chain _ 14

/-- Witness for C3 on a concrete successful run. -/
theorem forecast_dates_contiguous_witness :
    ∃ rows, (forecast_solar_data fpOk adfLow series0 ⟨none⟩).1.output = some rows ∧
      rows.map Prod.fst =
        forecast_dates ((resampleDaily series0).getLastD (0, 0)).1 14 ∧
      (rows.map Prod.fst).headD 0 =
        ((resampleDaily series0).getLastD (0, 0)).1 + secondsPerDay ∧
      List.Chain' (fun a b => b = a + secondsPerDay) (rows.map Prod.fst) ∧
      List.Chain' (· < ·) (rows.map Prod.fst) :=
  forecast_dates_contiguous fpOk adfLow series0 ⟨none⟩ (by decide)

/-- C4 counterexample: the resampled history of the concrete two-observation
series has length 2, below the order sum `p + d + q + P * S = 64`, yet no
error of any kind is raised before the fit: the SARIMA fit is attempted (the
run's outcome is decided by the external fit call), and when that external
fit succeeds the pipeline even writes the output file.  When the fit itself
raises, the surfaced error is the fit's own, not a pre-fit
`InsufficientHistoryError` — no such validation or error type exists in the
code. -/
theorem insufficient_history_not_validated :
    (resampleDaily series0).length ≤ order_sum ∧
    (forecast_solar_data fpOk adfHigh series0 ⟨none⟩).2 = none ∧
    (forecast_solar_data fpOk adfHigh series0 ⟨none⟩).1 ≠ ⟨none⟩ ∧
    (forecast_solar_data fpErr adfHigh series0 ⟨none⟩).2 = some "fit failed" := by
  refine ⟨by decide, by decide, by decide, by decide⟩

/-- C4 amended: the pipeline performs no history-length validation and
defines no `InsufficientHistoryError`; a series shorter than
`p + d + q + P * S` observations is passed directly to the SARIMA fit, and
only an error raised by the fit itself aborts the run, in which case it
propagates and the output file is left unmodified. -/
theorem insufficient_history_fit_error_propagates (fp : FitPredict) (adf : AdfPValue)
    (series : List (ℤ × Value)) (fs : FileState) (e : String)
    (_hshort : (resampleDaily series).length ≤ order_sum)
    (hfp : ∀ c p d q P D Q S s n, fp c p d q P D Q S s n = Except.error e) :
    (forecast_solar_data fp adf series fs).1 = fs ∧
    (forecast_solar_data fp adf series fs).2 ≠ none := by
  cases hdf : resampleDaily series with
  | nil =>
    rw [forecast_solar_data_nil fp adf series fs hdf]
    simp
  | cons b bs =>
    rw [forecast_solar_data_cons fp adf series fs b bs hdf]
    cases hst : check_stationarity adf (((b :: bs).map Prod.snd).map some) with
    | error e2 => simp
    | ok stationary =>
      simp only [sarima_forecast, hfp]
      simp

/-- Witness for the amended C4 at a concrete short series and failing fit. -/
theorem insufficient_history_fit_error_propagates_witness :
    (forecast_solar_data fpErr adfHigh series0 ⟨none⟩).1 = ⟨none⟩ ∧
    (forecast_solar_data fpErr adfHigh series0 ⟨none⟩).2 ≠ none :=
  insufficient_history_fit_error_propagates fpErr adfHigh series0 ⟨none⟩ "fit failed"
    (by decide) (fun _ _ _ _ _ _ _ _ _ _ => rfl)

/-- C5 counterexample: on a run whose stationarity verdict is non-stationary,
a fit oracle that returns all ones when called with differencing order
`d = 2` and all zeros otherwise produces an all-zeros forecast: the pipeline
passed `d = 1`, the unchanged configured order of line 118, not the
incremented `d + 1 = 2` the claim requires. -/
theorem nonstationary_d_not_incremented :
    check_stationarity adfHigh (((series0.map Prod.snd)).map some) =
      Except.ok false ∧
    (forecast_solar_data fpDMark adfHigh series0 ⟨none⟩).1.output =
      some ((forecast_dates 86400 14).zip (List.replicate 14 0)) ∧
    List.replicate 14 (0 : ℚ) ≠ List.replicate 14 (1 : ℚ) := by
  refine ⟨by decide, by decide, by decide⟩

/-- C5 amended: when the stationarity check reports non-stationary, the
pipeline replaces the column by its first difference (with a missing first
entry left by the index re-alignment of line 114) but passes the unchanged
hard-coded differencing order `d = 1` of line 118 to the SARIMA fit — the
order is not incremented to compensate. -/
theorem nonstationary_differences_but_keeps_d (fp : FitPredict) (adf : AdfPValue)
    (series : List (ℤ × Value)) (fs : FileState) (b : ℤ × Value)
    (bs : List (ℤ × Value)) (hdf : resampleDaily series = b :: bs)
    (hns : check_stationarity adf ((((b :: bs)).map Prod.snd).map some) =
      Except.ok false) :
    forecast_solar_data fp adf series fs =
      match sarima_forecast fp (diffList ((b :: bs).map Prod.snd))
          4 1 7 1 0 1 52 14 with
      | .error e => (fs, some e)
      | .ok f =>
        if (clampForecast f).length = 14 then
          ({ output := some ((forecast_dates (bs.getLastD b).1 14).zip
              (clampForecast f)) }, none)
        else (fs, some "ValueError: arrays must all be same length") := by
  rw [forecast_solar_data_check_ok fp adf series fs b bs false hdf hns]
  rfl

/-- Witness for the amended C5 at a concrete non-stationary run. -/
theorem nonstationary_differences_but_keeps_d_witness :
    forecast_solar_data fpErr adfHigh series0 ⟨none⟩ = (⟨none⟩, some "fit failed") :=
  (nonstationary_differences_but_keeps_d fpErr adfHigh series0 ⟨none⟩ (0, 5)
      [(86400, 3)]
      (resample_daily_idempotent series0 (by decide) (by decide)
        (by norm_num [series0, List.chain'_cons, List.chain'_singleton, secondsPerDay]))
      (by decide)).trans (by decide)
